import Mathlib

/-!
Verification of the F1 carbon footprint tracker (`f1_carbon_tracker.py`).

The program is a straight-line computation over a fixed in-memory race
calendar.  We embed it shallowly: Python floats become rationals (`ℚ`, exact
arithmetic for the linear formulas at hand), the class `F1CarbonTracker`
becomes a structure of its constant tables, dictionaries of named scalars
become structures, and pandas data frames become lists of rows.

The zero-denominator question gets two models.  The values the source divides
are numpy `float64` (pandas column sums), and numpy division by zero does not
raise: it yields `inf`/`nan` with a `RuntimeWarning` and the function returns
normally.  The `NpFloat` model captures that: exact rationals while finite,
with explicit `inf`/`nan` results for the zero-denominator cases.  The
`Except`-valued `pydiv` models plain Python scalar division (which raises
`ZeroDivisionError`); it is used for the in-branch division of
`required_annual_reduction`, whose guarded divisor is a nonzero int, and for a
checked variant of the scenario simulation that coincides with the source
whenever the base total is nonzero.
-/

/-- The `emission_factors` dictionary set up in `F1CarbonTracker.__init__`
(kg CO2 per unit; the freight factors are per kg per 1000 km). -/
structure EmissionFactors where
  air_freight_per_kg : ℚ
  sea_freight_per_kg : ℚ
  fuel_per_liter : ℚ
  passenger_flight_per_km : ℚ
  circuit_operations : ℚ
  hotel_night : ℚ
  deriving DecidableEq

/-- The `f1_data` dictionary of operational estimates set up in
`F1CarbonTracker.__init__`. -/
structure F1Data where
  teams : ℚ
  personnel_per_team : ℚ
  freight_weight_per_team : ℚ
  fuel_consumption_per_race : ℚ
  cars_per_race : ℚ
  support_series_factor : ℚ
  deriving DecidableEq

/-- One row of the race calendar: name, location, distance travelled from the
previous event, and the freight transport mode. -/
structure RaceEvent where
  race : String
  location : String
  distance_from_previous : ℚ
  freight_method : String
  deriving DecidableEq

/-- The tracker object: its three constant tables, as built by `__init__`
(the `comparisons` table is not needed by any claim). -/
structure F1CarbonTracker where
  emission_factors : EmissionFactors
  f1_data : F1Data
  race_calendar : List RaceEvent
  deriving DecidableEq

/-- The emission-factor constants from `__init__`. -/
def emission_factors : EmissionFactors :=
  { air_freight_per_kg := 2.1
    sea_freight_per_kg := 0.015
    fuel_per_liter := 2.31
    passenger_flight_per_km := 0.255
    circuit_operations := 500000
    hotel_night := 30 }

/-- The operational-data constants from `__init__`. -/
def f1_data : F1Data :=
  { teams := 10
    personnel_per_team := 80
    freight_weight_per_team := 15000
    fuel_consumption_per_race := 100
    cars_per_race := 20
    support_series_factor := 1.3 }

/-- The 24-event 2024 calendar built by `_initialize_race_calendar`. -/
def race_calendar : List RaceEvent :=
  [ ⟨"Bahrain GP", "Manama", 0, "sea"⟩,
    ⟨"Saudi Arabian GP", "Jeddah", 450, "road"⟩,
    ⟨"Australian GP", "Melbourne", 8500, "sea"⟩,
    ⟨"Japanese GP", "Suzuka", 8000, "sea"⟩,
    ⟨"Chinese GP", "Shanghai", 1700, "road"⟩,
    ⟨"Miami GP", "Miami", 17000, "air"⟩,
    ⟨"Emilia Romagna GP", "Imola", 8500, "air"⟩,
    ⟨"Monaco GP", "Monaco", 350, "road"⟩,
    ⟨"Canadian GP", "Montreal", 6200, "air"⟩,
    ⟨"Spanish GP", "Barcelona", 5200, "air"⟩,
    ⟨"Austrian GP", "Spielberg", 1000, "road"⟩,
    ⟨"British GP", "Silverstone", 1200, "road"⟩,
    ⟨"Hungarian GP", "Budapest", 1500, "road"⟩,
    ⟨"Belgian GP", "Spa", 1200, "road"⟩,
    ⟨"Dutch GP", "Zandvoort", 300, "road"⟩,
    ⟨"Italian GP", "Monza", 1000, "road"⟩,
    ⟨"Azerbaijan GP", "Baku", 3000, "air"⟩,
    ⟨"Singapore GP", "Singapore", 7500, "air"⟩,
    ⟨"United States GP", "Austin", 17000, "air"⟩,
    ⟨"Mexican GP", "Mexico City", 1500, "road"⟩,
    ⟨"Brazilian GP", "Sao Paulo", 3500, "air"⟩,
    ⟨"Las Vegas GP", "Las Vegas", 8000, "air"⟩,
    ⟨"Qatar GP", "Doha", 12000, "air"⟩,
    ⟨"Abu Dhabi GP", "Abu Dhabi", 550, "road"⟩ ]

/-- A freshly constructed tracker, as produced by `F1CarbonTracker()`. -/
def tracker_init : F1CarbonTracker :=
  ⟨emission_factors, f1_data, race_calendar⟩

/-- The per-race result dictionary returned by `calculate_race_emissions`:
the five category values and the total. -/
structure RaceEmissions where
  freight : ℚ
  personnel_travel : ℚ
  fuel : ℚ
  circuit_operations : ℚ
  accommodation : ℚ
  total : ℚ
  deriving DecidableEq

/-- `F1CarbonTracker.calculate_race_emissions`, line for line: freight by a
three-way mode selector (per-1000km factor, hence the division by 1000),
personnel flights, three sessions of fuel burn, the fixed circuit constant,
three hotel nights, and the support-series multiplier on the total. -/
def calculate_race_emissions (self : F1CarbonTracker) (race_data : RaceEvent) :
    RaceEmissions :=
  let distance := race_data.distance_from_previous
  let method := race_data.freight_method
  let total_freight := self.f1_data.teams * self.f1_data.freight_weight_per_team
  let freight_emissions :=
    if method = "air" then
      total_freight * distance * self.emission_factors.air_freight_per_kg / 1000
    else if method = "sea" then
      total_freight * distance * self.emission_factors.sea_freight_per_kg / 1000
    else
      total_freight * distance * 0.1 / 1000
  let total_personnel := self.f1_data.teams * self.f1_data.personnel_per_team
  let personnel_travel :=
    total_personnel * distance * self.emission_factors.passenger_flight_per_km
  let total_fuel := self.f1_data.fuel_consumption_per_race * self.f1_data.cars_per_race * 3
  let fuel_emissions := total_fuel * self.emission_factors.fuel_per_liter
  let circuit_emissions := self.emission_factors.circuit_operations
  let accommodation := total_personnel * 3 * self.emission_factors.hotel_night
  let total_emissions :=
    (freight_emissions + personnel_travel + fuel_emissions +
      circuit_emissions + accommodation) * self.f1_data.support_series_factor
  { freight := freight_emissions
    personnel_travel := personnel_travel
    fuel := fuel_emissions
    circuit_operations := circuit_emissions
    accommodation := accommodation
    total := total_emissions }

/-- One row of the season data frame built by `calculate_season_emissions`:
the per-race emissions dictionary with the race name and location appended. -/
structure SeasonRow where
  race : String
  location : String
  emissions : RaceEmissions
  deriving DecidableEq

/-- `F1CarbonTracker.calculate_season_emissions`: one result row per calendar
event, in calendar order. -/
def calculate_season_emissions (self : F1CarbonTracker) : List SeasonRow :=
  self.race_calendar.map fun race =>
    { race := race.race
      location := race.location
      emissions := calculate_race_emissions self race }

/-- Sum of the `total` column of an emissions data frame
(`emissions_df['total'].sum()`). -/
def sum_total (emissions_df : List SeasonRow) : ℚ :=
  (emissions_df.map fun row => row.emissions.total).sum

/-- Sum of the `freight` column of an emissions data frame. -/
def sum_freight (emissions_df : List SeasonRow) : ℚ :=
  (emissions_df.map fun row => row.emissions.freight).sum

/-- Sum of the `personnel_travel` column of an emissions data frame. -/
def sum_personnel_travel (emissions_df : List SeasonRow) : ℚ :=
  (emissions_df.map fun row => row.emissions.personnel_travel).sum

/-- Sum of the `fuel` column of an emissions data frame. -/
def sum_fuel (emissions_df : List SeasonRow) : ℚ :=
  (emissions_df.map fun row => row.emissions.fuel).sum

/-- Sum of the `circuit_operations` column of an emissions data frame. -/
def sum_circuit_operations (emissions_df : List SeasonRow) : ℚ :=
  (emissions_df.map fun row => row.emissions.circuit_operations).sum

/-- Sum of the `accommodation` column of an emissions data frame. -/
def sum_accommodation (emissions_df : List SeasonRow) : ℚ :=
  (emissions_df.map fun row => row.emissions.accommodation).sum

/-- One scenario dictionary produced by `simulate_sustainability_scenarios`. -/
structure Scenario where
  reduction : ℚ
  new_total : ℚ
  percentage_reduction : ℚ
  deriving DecidableEq

/-- The four scenario dictionaries returned by
`simulate_sustainability_scenarios`. -/
structure Scenarios where
  sustainable_aviation_fuel : Scenario
  calendar_optimization : Scenario
  renewable_energy : Scenario
  combined_approach : Scenario
  deriving DecidableEq

/-- `F1CarbonTracker.simulate_sustainability_scenarios` with exact rational
division (the checked variant below models the Python division fault). -/
def simulate_sustainability_scenarios (emissions_df : List SeasonRow) : Scenarios :=
  let base_total := sum_total emissions_df
  let saf_reduction := sum_freight emissions_df * 0.5
  let travel_reduction :=
    (sum_freight emissions_df + sum_personnel_travel emissions_df) * 0.2
  let circuit_reduction := sum_circuit_operations emissions_df * 0.8
  let combined_reduction := saf_reduction + travel_reduction + circuit_reduction
  { sustainable_aviation_fuel :=
      { reduction := saf_reduction
        new_total := base_total - saf_reduction
        percentage_reduction := saf_reduction / base_total * 100 }
    calendar_optimization :=
      { reduction := travel_reduction
        new_total := base_total - travel_reduction
        percentage_reduction := travel_reduction / base_total * 100 }
    renewable_energy :=
      { reduction := circuit_reduction
        new_total := base_total - circuit_reduction
        percentage_reduction := circuit_reduction / base_total * 100 }
    combined_approach :=
      { reduction := combined_reduction
        new_total := base_total - combined_reduction
        percentage_reduction := combined_reduction / base_total * 100 } }

/-- Plain Python scalar division: raises `ZeroDivisionError` on a zero
denominator, otherwise returns the exact quotient.  This is not the semantics
of the source's frame-sum divisions, which are numpy `float64` (see `np_div`):
it is used only where the two coincide (nonzero denominators). -/
def pydiv (a b : ℚ) : Except String ℚ :=
  if b = 0 then .error "ZeroDivisionError" else .ok (a / b)

/-- A numpy `float64` value, abstracted: exact rational while finite, with
the non-finite values that numpy produces instead of raising.  Rounding is
irrelevant to the properties proved here. -/
inductive NpFloat where
  | finite (q : ℚ)
  | posInf
  | negInf
  | nan
  deriving DecidableEq

/-- numpy `float64` division: a zero denominator yields `nan` (for a zero
numerator) or a signed infinity, with a `RuntimeWarning`; it does not raise. -/
def np_div (a b : ℚ) : NpFloat :=
  if b = 0 then
    (if a = 0 then .nan else if 0 < a then .posInf else .negInf)
  else .finite (a / b)

/-- Multiplication of a numpy value by a finite constant, propagating the
non-finite values by sign (IEEE-754 rules). -/
def NpFloat.mulc (x : NpFloat) (c : ℚ) : NpFloat :=
  match x with
  | .finite q => .finite (q * c)
  | .nan => .nan
  | .posInf => if 0 < c then .posInf else if c < 0 then .negInf else .nan
  | .negInf => if 0 < c then .negInf else if c < 0 then .posInf else .nan

/-- Whether a numpy value is finite (neither infinite nor `nan`). -/
def np_is_finite : NpFloat → Bool
  | .finite _ => true
  | _ => false

/-- One scenario dictionary under numpy semantics: the reduction and new
total stay finite, the percentage carries the possibly non-finite quotient. -/
structure ScenarioNp where
  reduction : ℚ
  new_total : ℚ
  percentage_reduction : NpFloat
  deriving DecidableEq

/-- The four scenario dictionaries under numpy semantics. -/
structure ScenariosNp where
  sustainable_aviation_fuel : ScenarioNp
  calendar_optimization : ScenarioNp
  renewable_energy : ScenarioNp
  combined_approach : ScenarioNp
  deriving DecidableEq

/-- Checked variant of `simulate_sustainability_scenarios`: each of the four
`percentage_reduction` divisions is a `pydiv`, evaluated in source order, so
it flags a zero `base_total`.  On every frame with nonzero base total it
coincides with the plain model (and with the source); the source itself does
not fault on a zero base total, it returns non-finite numpy values — see
`simulate_sustainability_scenarios_np`. -/
def simulate_sustainability_scenarios_checked (emissions_df : List SeasonRow) :
    Except String Scenarios :=
  let base_total := sum_total emissions_df
  let saf_reduction := sum_freight emissions_df * 0.5
  let travel_reduction :=
    (sum_freight emissions_df + sum_personnel_travel emissions_df) * 0.2
  let circuit_reduction := sum_circuit_operations emissions_df * 0.8
  let combined_reduction := saf_reduction + travel_reduction + circuit_reduction
  (pydiv saf_reduction base_total).bind fun p1 =>
    (pydiv travel_reduction base_total).bind fun p2 =>
      (pydiv circuit_reduction base_total).bind fun p3 =>
        (pydiv combined_reduction base_total).map fun p4 =>
          { sustainable_aviation_fuel :=
              { reduction := saf_reduction
                new_total := base_total - saf_reduction
                percentage_reduction := p1 * 100 }
            calendar_optimization :=
              { reduction := travel_reduction
                new_total := base_total - travel_reduction
                percentage_reduction := p2 * 100 }
            renewable_energy :=
              { reduction := circuit_reduction
                new_total := base_total - circuit_reduction
                percentage_reduction := p3 * 100 }
            combined_approach :=
              { reduction := combined_reduction
                new_total := base_total - combined_reduction
                percentage_reduction := p4 * 100 } }

/-- The `required_annual_reduction` binding of `track_progress_to_net_zero`:
divide by the years remaining only when that count is positive, otherwise
take the full current emissions. -/
def required_annual_reduction (current_emissions : ℚ) (years_remaining : ℤ) :
    Except String ℚ :=
  if 0 < years_remaining then pydiv current_emissions (years_remaining : ℚ)
  else .ok current_emissions

/-- The scenario simulation under numpy `float64` semantics: the reductions
and new totals are finite products and differences of frame sums, and each
`percentage_reduction` is the unguarded `(reduction / base_total) * 100`,
which is non-finite when the base total is zero. -/
def simulate_sustainability_scenarios_np (emissions_df : List SeasonRow) :
    ScenariosNp :=
  let base_total := sum_total emissions_df
  let saf_reduction := sum_freight emissions_df * 0.5
  let travel_reduction :=
    (sum_freight emissions_df + sum_personnel_travel emissions_df) * 0.2
  let circuit_reduction := sum_circuit_operations emissions_df * 0.8
  let combined_reduction := saf_reduction + travel_reduction + circuit_reduction
  { sustainable_aviation_fuel :=
      ⟨saf_reduction, base_total - saf_reduction,
        NpFloat.mulc (np_div saf_reduction base_total) 100⟩
    calendar_optimization :=
      ⟨travel_reduction, base_total - travel_reduction,
        NpFloat.mulc (np_div travel_reduction base_total) 100⟩
    renewable_energy :=
      ⟨circuit_reduction, base_total - circuit_reduction,
        NpFloat.mulc (np_div circuit_reduction base_total) 100⟩
    combined_approach :=
      ⟨combined_reduction, base_total - combined_reduction,
        NpFloat.mulc (np_div combined_reduction base_total) 100⟩ }

/-- `F1CarbonTracker.track_progress_to_net_zero`: `current_year` stands for
`datetime.now().year`.  The function computes the required annual reduction
(the ternary of line 331, modelled scalar-side by `required_annual_reduction`;
its divisor is a nonzero int whenever divided) and then prints a reduction
rate, dividing by `current_emissions` unguarded under numpy semantics.  It
returns the required reduction; the pair records the printed rate. -/
def track_progress_to_net_zero (current_emissions : ℚ)
    (current_year target_year : ℤ) : ℚ × NpFloat :=
  let years_remaining := target_year - current_year
  let required :=
    if 0 < years_remaining then current_emissions / (years_remaining : ℚ)
    else current_emissions
  (required, NpFloat.mulc (np_div required current_emissions) 100)

/-- A one-row emissions data frame whose every entry is zero: a concrete
season with zero total emissions. -/
def zero_df : List SeasonRow := [⟨"Zero GP", "Nowhere", ⟨0, 0, 0, 0, 0, 0⟩⟩]

/-- The per-kg, per-km freight coefficient of a transport mode: the source
stores per-1000km factors (air 2.1, sea 0.015, road 0.1) and divides the
freight product by 1000. -/
def freight_mode_factor (method : String) : ℚ :=
  (if method = "air" then emission_factors.air_freight_per_kg
   else if method = "sea" then emission_factors.sea_freight_per_kg
   else 0.1) / 1000

/-- The first calendar entry, used as a concrete sample event. -/
def bahrain_gp : RaceEvent := ⟨"Bahrain GP", "Manama", 0, "sea"⟩

/-- An event with a freight method outside the recognized set. -/
def train_event : RaceEvent := ⟨"Test GP", "Testville", 100, "rail"⟩

/-- A one-row emissions data frame with nonzero total, used as a concrete
sample input to the scenario simulation. -/
def sample_df : List SeasonRow := [⟨"Sample GP", "Nowhere", ⟨1, 2, 3, 4, 5, 15⟩⟩]

/-- First run of the season calculation on a freshly constructed tracker. -/
def season_run_one : List SeasonRow := calculate_season_emissions tracker_init

/-- Second, independent run of the season calculation on a freshly
constructed tracker. -/
def season_run_two : List SeasonRow := calculate_season_emissions tracker_init

lemma road_not_air : (("road" : String) = "air") = False := by decide

lemma road_not_sea : (("road" : String) = "sea") = False := by decide

lemma sea_not_air : (("sea" : String) = "air") = False := by decide

lemma sea_is_sea : (("sea" : String) = "sea") = True := by decide

lemma air_is_air : (("air" : String) = "air") = True := by decide

lemma race_calendar_distance_nonneg : ∀ r ∈ race_calendar, 0 ≤ r.distance_from_previous := by
  decide

lemma categories_nonneg_of_distance_nonneg (r : RaceEvent)
    (hd : 0 ≤ r.distance_from_previous) :
    0 ≤ (calculate_race_emissions tracker_init r).freight
    ∧ 0 ≤ (calculate_race_emissions tracker_init r).personnel_travel
    ∧ 0 ≤ (calculate_race_emissions tracker_init r).fuel
    ∧ 0 ≤ (calculate_race_emissions tracker_init r).circuit_operations
    ∧ 0 ≤ (calculate_race_emissions tracker_init r).accommodation := by
  refine ⟨?_, ?_, ?_, ?_, ?_⟩ <;>
    simp only [calculate_race_emissions, tracker_init, emission_factors, f1_data]
  · split_ifs <;> positivity
  · positivity
  · positivity
  · positivity
  · positivity

/-- C1: for every race event, `calculate_race_emissions` prices freight as
total freight weight times distance times the mode coefficient, personnel
travel as total personnel times distance times the per-km flight factor, fuel
as per-race consumption times cars times 3 sessions times the per-liter
factor, circuit operations as the fixed constant 500000, and accommodation as
total personnel times 3 nights times the hotel-night factor. -/
theorem race_emissions_category_formulas (r : RaceEvent) :
    (calculate_race_emissions tracker_init r).freight
        = f1_data.teams * f1_data.freight_weight_per_team * r.distance_from_previous
            * freight_mode_factor r.freight_method
    ∧ (calculate_race_emissions tracker_init r).personnel_travel
        = f1_data.teams * f1_data.personnel_per_team * r.distance_from_previous
            * emission_factors.passenger_flight_per_km
    ∧ (calculate_race_emissions tracker_init r).fuel
        = f1_data.fuel_consumption_per_race * f1_data.cars_per_race * 3
            * emission_factors.fuel_per_liter
    ∧ (calculate_race_emissions tracker_init r).circuit_operations = 500000
    ∧ (calculate_race_emissions tracker_init r).accommodation
        = f1_data.teams * f1_data.personnel_per_team * 3 * emission_factors.hotel_night := by
  refine ⟨?_, rfl, rfl, rfl, rfl⟩
  simp only [calculate_race_emissions, freight_mode_factor, tracker_init]
  split_ifs <;> ring

/-- C2: for every calendar event, the returned total equals the sum of the
five category values times the support-series factor 1.3, and consequently
the total is at least that category sum. -/
theorem race_total_support_series (r : RaceEvent) (h : r ∈ race_calendar) :
    (calculate_race_emissions tracker_init r).total
        = ((calculate_race_emissions tracker_init r).freight
            + (calculate_race_emissions tracker_init r).personnel_travel
            + (calculate_race_emissions tracker_init r).fuel
            + (calculate_race_emissions tracker_init r).circuit_operations
            + (calculate_race_emissions tracker_init r).accommodation) * 1.3
    ∧ (calculate_race_emissions tracker_init r).freight
        + (calculate_race_emissions tracker_init r).personnel_travel
        + (calculate_race_emissions tracker_init r).fuel
        + (calculate_race_emissions tracker_init r).circuit_operations
        + (calculate_race_emissions tracker_init r).accommodation
      ≤ (calculate_race_emissions tracker_init r).total := by
  have hd := race_calendar_distance_nonneg r h
  refine ⟨rfl, ?_⟩
  simp only [calculate_race_emissions, tracker_init, emission_factors, f1_data]
  split_ifs <;> nlinarith [hd]

/-- Witness for C2 at the first calendar event. -/
theorem race_total_support_series_witness :
    bahrain_gp ∈ race_calendar
    ∧ ((calculate_race_emissions tracker_init bahrain_gp).total
          = ((calculate_race_emissions tracker_init bahrain_gp).freight
              + (calculate_race_emissions tracker_init bahrain_gp).personnel_travel
              + (calculate_race_emissions tracker_init bahrain_gp).fuel
              + (calculate_race_emissions tracker_init bahrain_gp).circuit_operations
              + (calculate_race_emissions tracker_init bahrain_gp).accommodation) * 1.3
        ∧ (calculate_race_emissions tracker_init bahrain_gp).freight
            + (calculate_race_emissions tracker_init bahrain_gp).personnel_travel
            + (calculate_race_emissions tracker_init bahrain_gp).fuel
            + (calculate_race_emissions tracker_init bahrain_gp).circuit_operations
            + (calculate_race_emissions tracker_init bahrain_gp).accommodation
          ≤ (calculate_race_emissions tracker_init bahrain_gp).total) :=
  ⟨by decide, race_total_support_series bahrain_gp (by decide)⟩

/-- C3: the sum of the total column of the season frame equals the sum of the
per-event totals over the calendar, and the calendar has 24 events. -/
theorem season_total_eq_sum_event_totals :
    sum_total (calculate_season_emissions tracker_init)
        = (race_calendar.map fun r => (calculate_race_emissions tracker_init r).total).sum
    ∧ race_calendar.length = 24 := by
  refine ⟨?_, rfl⟩
  show (List.map _ (List.map _ race_calendar)).sum = _
  rw [List.map_map]
  congr 1

/-- C4: for every emissions data frame, the combined scenario's reduction is
the sum of the three independent scenario reductions. -/
theorem combined_reduction_eq_sum_of_parts (emissions_df : List SeasonRow) :
    (simulate_sustainability_scenarios emissions_df).combined_approach.reduction
      = (simulate_sustainability_scenarios emissions_df).sustainable_aviation_fuel.reduction
        + (simulate_sustainability_scenarios emissions_df).calendar_optimization.reduction
        + (simulate_sustainability_scenarios emissions_df).renewable_energy.reduction := rfl

/-- C5: when the base total is nonzero the checked simulation returns (no
fault) exactly the scenario table, in which every scenario's percentage
reduction is its reduction divided by the base total times 100 and every
new total is the base total minus the reduction. -/
theorem scenario_percentage_and_new_total (emissions_df : List SeasonRow)
    (h : sum_total emissions_df ≠ 0) :
    simulate_sustainability_scenarios_checked emissions_df
        = .ok (simulate_sustainability_scenarios emissions_df)
    ∧ (simulate_sustainability_scenarios emissions_df).sustainable_aviation_fuel.percentage_reduction
        = (simulate_sustainability_scenarios emissions_df).sustainable_aviation_fuel.reduction
            / sum_total emissions_df * 100
    ∧ (simulate_sustainability_scenarios emissions_df).sustainable_aviation_fuel.new_total
        = sum_total emissions_df
            - (simulate_sustainability_scenarios emissions_df).sustainable_aviation_fuel.reduction
    ∧ (simulate_sustainability_scenarios emissions_df).calendar_optimization.percentage_reduction
        = (simulate_sustainability_scenarios emissions_df).calendar_optimization.reduction
            / sum_total emissions_df * 100
    ∧ (simulate_sustainability_scenarios emissions_df).calendar_optimization.new_total
        = sum_total emissions_df
            - (simulate_sustainability_scenarios emissions_df).calendar_optimization.reduction
    ∧ (simulate_sustainability_scenarios emissions_df).renewable_energy.percentage_reduction
        = (simulate_sustainability_scenarios emissions_df).renewable_energy.reduction
            / sum_total emissions_df * 100
    ∧ (simulate_sustainability_scenarios emissions_df).renewable_energy.new_total
        = sum_total emissions_df
            - (simulate_sustainability_scenarios emissions_df).renewable_energy.reduction
    ∧ (simulate_sustainability_scenarios emissions_df).combined_approach.percentage_reduction
        = (simulate_sustainability_scenarios emissions_df).combined_approach.reduction
            / sum_total emissions_df * 100
    ∧ (simulate_sustainability_scenarios emissions_df).combined_approach.new_total
        = sum_total emissions_df
            - (simulate_sustainability_scenarios emissions_df).combined_approach.reduction := by
  refine ⟨?_, rfl, rfl, rfl, rfl, rfl, rfl, rfl, rfl⟩
  simp [simulate_sustainability_scenarios_checked, simulate_sustainability_scenarios, pydiv, h,
    Except.bind, Except.map]

/-- Witness for C5 at a concrete one-row data frame with total 15. -/
theorem scenario_percentage_and_new_total_witness :
    sum_total sample_df ≠ 0
    ∧ (simulate_sustainability_scenarios_checked sample_df
          = .ok (simulate_sustainability_scenarios sample_df)
      ∧ (simulate_sustainability_scenarios sample_df).sustainable_aviation_fuel.percentage_reduction
          = (simulate_sustainability_scenarios sample_df).sustainable_aviation_fuel.reduction
              / sum_total sample_df * 100
      ∧ (simulate_sustainability_scenarios sample_df).sustainable_aviation_fuel.new_total
          = sum_total sample_df
              - (simulate_sustainability_scenarios sample_df).sustainable_aviation_fuel.reduction
      ∧ (simulate_sustainability_scenarios sample_df).calendar_optimization.percentage_reduction
          = (simulate_sustainability_scenarios sample_df).calendar_optimization.reduction
              / sum_total sample_df * 100
      ∧ (simulate_sustainability_scenarios sample_df).calendar_optimization.new_total
          = sum_total sample_df
              - (simulate_sustainability_scenarios sample_df).calendar_optimization.reduction
      ∧ (simulate_sustainability_scenarios sample_df).renewable_energy.percentage_reduction
          = (simulate_sustainability_scenarios sample_df).renewable_energy.reduction
              / sum_total sample_df * 100
      ∧ (simulate_sustainability_scenarios sample_df).renewable_energy.new_total
          = sum_total sample_df
              - (simulate_sustainability_scenarios sample_df).renewable_energy.reduction
      ∧ (simulate_sustainability_scenarios sample_df).combined_approach.percentage_reduction
          = (simulate_sustainability_scenarios sample_df).combined_approach.reduction
              / sum_total sample_df * 100
      ∧ (simulate_sustainability_scenarios sample_df).combined_approach.new_total
          = sum_total sample_df
              - (simulate_sustainability_scenarios sample_df).combined_approach.reduction) :=
  ⟨by simp [sum_total, sample_df],
    scenario_percentage_and_new_total sample_df (by simp [sum_total, sample_df])⟩

/-- C6: two runs of the season calculation on freshly constructed trackers
give identical row lists, and the figures are reproducible constants: the
season total is 85069549.5 kg and the five category column sums are the
stated constants. -/
theorem season_calculation_deterministic :
    season_run_one = season_run_two
    ∧ sum_total season_run_one = 170139099 / 2
    ∧ sum_freight season_run_one = 27886875
    ∧ sum_personnel_travel season_run_one = 23490600
    ∧ sum_fuel season_run_one = 332640
    ∧ sum_circuit_operations season_run_one = 12000000
    ∧ sum_accommodation season_run_one = 1728000 := by
  refine ⟨rfl, ?_, ?_, ?_, ?_, ?_, ?_⟩ <;>
    norm_num [season_run_one, sum_total, sum_freight, sum_personnel_travel, sum_fuel,
      sum_circuit_operations, sum_accommodation, calculate_season_emissions,
      calculate_race_emissions, tracker_init, race_calendar, emission_factors, f1_data,
      road_not_air, road_not_sea, sea_not_air, sea_is_sea, air_is_air]

/-- C7: every calendar event's five category values are non-negative. -/
theorem race_categories_nonneg (r : RaceEvent) (h : r ∈ race_calendar) :
    0 ≤ (calculate_race_emissions tracker_init r).freight
    ∧ 0 ≤ (calculate_race_emissions tracker_init r).personnel_travel
    ∧ 0 ≤ (calculate_race_emissions tracker_init r).fuel
    ∧ 0 ≤ (calculate_race_emissions tracker_init r).circuit_operations
    ∧ 0 ≤ (calculate_race_emissions tracker_init r).accommodation :=
  categories_nonneg_of_distance_nonneg r (race_calendar_distance_nonneg r h)

/-- Witness for C7 at the first calendar event. -/
theorem race_categories_nonneg_witness :
    bahrain_gp ∈ race_calendar
    ∧ (0 ≤ (calculate_race_emissions tracker_init bahrain_gp).freight
      ∧ 0 ≤ (calculate_race_emissions tracker_init bahrain_gp).personnel_travel
      ∧ 0 ≤ (calculate_race_emissions tracker_init bahrain_gp).fuel
      ∧ 0 ≤ (calculate_race_emissions tracker_init bahrain_gp).circuit_operations
      ∧ 0 ≤ (calculate_race_emissions tracker_init bahrain_gp).accommodation) :=
  ⟨by decide, race_categories_nonneg bahrain_gp (by decide)⟩

lemma np_div_by_zero_mulc_not_finite (a : ℚ) :
    np_is_finite (NpFloat.mulc (np_div a 0) 100) = false := by
  by_cases h0 : a = 0
  · norm_num [np_div, NpFloat.mulc, np_is_finite, h0]
  · by_cases hp : 0 < a
    · norm_num [np_div, NpFloat.mulc, np_is_finite, h0, hp]
    · norm_num [np_div, NpFloat.mulc, np_is_finite, h0, hp]

/-- C8 counterexample: on a concrete season frame with zero total emissions
the scenario simulation does not fault — under the source's numpy `float64`
division semantics it returns a scenarios dictionary (with `nan` percentages),
and the net-zero tracker with zero current emissions likewise returns its
required reduction, with a `nan` printed rate. -/
theorem division_fault_claim_counterexample :
    sum_total zero_df = 0
    ∧ simulate_sustainability_scenarios_np zero_df
        = ⟨⟨0, 0, .nan⟩, ⟨0, 0, .nan⟩, ⟨0, 0, .nan⟩, ⟨0, 0, .nan⟩⟩
    ∧ track_progress_to_net_zero 0 2025 2030 = (0, NpFloat.nan) := by
  refine ⟨by simp [sum_total, zero_df], ?_, ?_⟩
  · norm_num [simulate_sustainability_scenarios_np, zero_df, sum_total, sum_freight,
      sum_personnel_travel, sum_circuit_operations, np_div, NpFloat.mulc]
  · norm_num [track_progress_to_net_zero, np_div, NpFloat.mulc]

/-- C8 (amended): the divisions by the base season total and by the current
emissions are unguarded, but under numpy `float64` semantics a zero
denominator yields a non-finite value rather than a fault: on any frame whose
total column sums to zero all four scenarios come back with non-finite
percentage reductions, and with zero current emissions the net-zero tracker
returns its required reduction (zero) with a non-finite rate, for every pair
of years. -/
theorem division_by_zero_yields_nonfinite (emissions_df : List SeasonRow)
    (h : sum_total emissions_df = 0) :
    np_is_finite
        (simulate_sustainability_scenarios_np emissions_df).sustainable_aviation_fuel.percentage_reduction
      = false
    ∧ np_is_finite
        (simulate_sustainability_scenarios_np emissions_df).calendar_optimization.percentage_reduction
      = false
    ∧ np_is_finite
        (simulate_sustainability_scenarios_np emissions_df).renewable_energy.percentage_reduction
      = false
    ∧ np_is_finite
        (simulate_sustainability_scenarios_np emissions_df).combined_approach.percentage_reduction
      = false
    ∧ ∀ current_year target_year : ℤ,
        track_progress_to_net_zero 0 current_year target_year = (0, NpFloat.nan) := by
  refine ⟨?_, ?_, ?_, ?_, ?_⟩
  · simp only [simulate_sustainability_scenarios_np, h]
    exact np_div_by_zero_mulc_not_finite _
  · simp only [simulate_sustainability_scenarios_np, h]
    exact np_div_by_zero_mulc_not_finite _
  · simp only [simulate_sustainability_scenarios_np, h]
    exact np_div_by_zero_mulc_not_finite _
  · simp only [simulate_sustainability_scenarios_np, h]
    exact np_div_by_zero_mulc_not_finite _
  · intro current_year target_year
    simp [track_progress_to_net_zero, np_div, NpFloat.mulc]

/-- Witness for the amended C8 at the concrete zero frame and years. -/
theorem division_by_zero_yields_nonfinite_witness :
    sum_total zero_df = 0
    ∧ np_is_finite
        (simulate_sustainability_scenarios_np zero_df).sustainable_aviation_fuel.percentage_reduction
      = false
    ∧ np_is_finite
        (simulate_sustainability_scenarios_np zero_df).calendar_optimization.percentage_reduction
      = false
    ∧ np_is_finite
        (simulate_sustainability_scenarios_np zero_df).renewable_energy.percentage_reduction
      = false
    ∧ np_is_finite
        (simulate_sustainability_scenarios_np zero_df).combined_approach.percentage_reduction
      = false
    ∧ track_progress_to_net_zero 0 2025 2030 = (0, NpFloat.nan) :=
  ⟨by simp [sum_total, zero_df],
    (division_by_zero_yields_nonfinite zero_df (by simp [sum_total, zero_df])).1,
    (division_by_zero_yields_nonfinite zero_df (by simp [sum_total, zero_df])).2.1,
    (division_by_zero_yields_nonfinite zero_df (by simp [sum_total, zero_df])).2.2.1,
    (division_by_zero_yields_nonfinite zero_df (by simp [sum_total, zero_df])).2.2.2.1,
    (division_by_zero_yields_nonfinite zero_df
      (by simp [sum_total, zero_df])).2.2.2.2 2025 2030⟩

/-- C9: any freight method other than air and sea falls to the else branch
and is priced with the road factor 0.1 per kg per 1000 km, so the calculation
never fails on an unrecognized mode. -/
theorem unknown_freight_method_priced_as_road (r : RaceEvent)
    (h1 : r.freight_method ≠ "air") (h2 : r.freight_method ≠ "sea") :
    (calculate_race_emissions tracker_init r).freight
      = f1_data.teams * f1_data.freight_weight_per_team * r.distance_from_previous
          * 0.1 / 1000 := by
  simp [calculate_race_emissions, tracker_init, h1, h2]

/-- Witness for C9 at an event shipped by rail. -/
theorem unknown_freight_method_priced_as_road_witness :
    train_event.freight_method ≠ "air"
    ∧ train_event.freight_method ≠ "sea"
    ∧ (calculate_race_emissions tracker_init train_event).freight
        = f1_data.teams * f1_data.freight_weight_per_team * train_event.distance_from_previous
            * 0.1 / 1000 :=
  ⟨by decide, by decide,
    unknown_freight_method_priced_as_road train_event (by decide) (by decide)⟩

/-- C10: when the years remaining to the target are zero or negative, the
required annual reduction is the full current emissions and the guarded
division is never performed, for every current emissions value and years. -/
theorem required_reduction_when_no_years_remaining (current_emissions : ℚ)
    (current_year target_year : ℤ) (h : target_year - current_year ≤ 0) :
    required_annual_reduction current_emissions (target_year - current_year)
      = .ok current_emissions := by
  simp [required_annual_reduction, not_lt.mpr h]

/-- Witness for C10 with the target year already past. -/
theorem required_reduction_when_no_years_remaining_witness :
    (2030 : ℤ) - 2031 ≤ 0
    ∧ required_annual_reduction 7 ((2030 : ℤ) - 2031) = .ok 7 :=
  ⟨by decide, required_reduction_when_no_years_remaining 7 2031 2030 (by decide)⟩
